import Mathlib

/-!
Verification of the kubos driver layer: the MAI-400 ADACS command codec and
dispatcher (mai400-api) and the NOVATEL OEM6 service status decoders and
lock-state objects (novatel-oem6-service/src/objects.rs).

Bytes are modelled as `Nat` reduced modulo 256 where the code stores them in
a `u8`; 32-bit floating-point fields are carried as their four IEEE-754
little-endian bytes (the codec only moves them, it never computes with them);
64-bit floats in `LockInfo` are carried as raw bit patterns.
-/

/-! ### Status decoders (novatel-oem6-service/src/objects.rs) -/

/-- Enum for the positionStatus and velocityStatus response fields of the
lockStatus query; transcribed from objects.rs. -/
inductive SolutionStatus where
  | SolComputed
  | InsufficientObservations
  | NoConvergence
  | Singularity
  | CovarianceTraceExceeded
  | TestDistanceExceeded
  | ColdStart
  | HeightVelocityExceeded
  | VarianceExceeded
  | ResidualsTooLarge
  | IntegrityWarning
  | Pending
  | InvalidFix
  | Unauthorized
  | KubosInvalid
deriving DecidableEq, Repr

/-- Rust impl From for SolutionStatus: a u32 code is matched against the
fixed table, every unlisted code falls through to KubosInvalid. -/
def SolutionStatus.fromU32 (t : Nat) : SolutionStatus :=
  if t = 0 then .SolComputed
  else if t = 1 then .InsufficientObservations
  else if t = 2 then .NoConvergence
  else if t = 3 then .Singularity
  else if t = 4 then .CovarianceTraceExceeded
  else if t = 5 then .TestDistanceExceeded
  else if t = 6 then .ColdStart
  else if t = 7 then .HeightVelocityExceeded
  else if t = 8 then .VarianceExceeded
  else if t = 9 then .ResidualsTooLarge
  else if t = 13 then .IntegrityWarning
  else if t = 18 then .Pending
  else if t = 19 then .InvalidFix
  else if t = 20 then .Unauthorized
  else .KubosInvalid

/-- Enum for the positionType and velocityType response fields of the
lockStatus query; transcribed from objects.rs. -/
inductive PosVelType where
  | None
  | FixedPos
  | FixedHeight
  | DopplerVelocity
  | Single
  | PSRDiff
  | WAAS
  | Propagated
  | Omnistar
  | L1Float
  | IonoFreeFloat
  | NarrowFloat
  | L1Integer
  | NarrowInteger
  | OmnistarHP
  | OmnistarXP
  | PPPConverging
  | PPP
  | Operational
  | Warning
  | OutOfBounds
  | PPPBasicConverging
  | PPPBasic
  | KubosInvalid
deriving DecidableEq, Repr

/-- Rust impl From for PosVelType: a u32 code is matched against the fixed
table, every unlisted code falls through to KubosInvalid. -/
def PosVelType.fromU32 (t : Nat) : PosVelType :=
  if t = 0 then .None
  else if t = 1 then .FixedPos
  else if t = 2 then .FixedHeight
  else if t = 8 then .DopplerVelocity
  else if t = 16 then .Single
  else if t = 17 then .PSRDiff
  else if t = 18 then .WAAS
  else if t = 19 then .Propagated
  else if t = 20 then .Omnistar
  else if t = 32 then .L1Float
  else if t = 33 then .IonoFreeFloat
  else if t = 34 then .NarrowFloat
  else if t = 48 then .L1Integer
  else if t = 50 then .NarrowInteger
  else if t = 64 then .OmnistarHP
  else if t = 65 then .OmnistarXP
  else if t = 68 then .PPPConverging
  else if t = 69 then .PPP
  else if t = 70 then .Operational
  else if t = 71 then .Warning
  else if t = 72 then .OutOfBounds
  else if t = 77 then .PPPBasicConverging
  else if t = 78 then .PPPBasic
  else .KubosInvalid

/-- Enum for the TimeStatus response field of the lockStatus query;
transcribed from objects.rs. -/
inductive RefTimeStatus where
  | Unknown
  | Approximate
  | CoarseAdjusting
  | Coarse
  | CoarseSteering
  | FreeWheeling
  | FineAdjusting
  | Fine
  | FineBackupSteering
  | FineSteering
  | SatTime
  | KubosInvalid
deriving DecidableEq, Repr

/-- Rust impl From for RefTimeStatus: a u8 code is matched against the fixed
table, every unlisted code falls through to KubosInvalid. -/
def RefTimeStatus.fromU8 (t : Nat) : RefTimeStatus :=
  if t = 20 then .Unknown
  else if t = 60 then .Approximate
  else if t = 80 then .CoarseAdjusting
  else if t = 100 then .Coarse
  else if t = 120 then .CoarseSteering
  else if t = 130 then .FreeWheeling
  else if t = 140 then .FineAdjusting
  else if t = 160 then .Fine
  else if t = 170 then .FineBackupSteering
  else if t = 180 then .FineSteering
  else if t = 200 then .SatTime
  else .KubosInvalid

/-- Known raw codes of the SolutionStatus table in objects.rs. -/
def solutionStatusKnownCodes : List Nat :=
  [0, 1, 2, 3, 4, 5, 6, 7, 8, 9, 13, 18, 19, 20]

/-- Known raw codes of the PosVelType table in objects.rs. -/
def posVelTypeKnownCodes : List Nat :=
  [0, 1, 2, 8, 16, 17, 18, 19, 20, 32, 33, 34, 48, 50,
   64, 65, 68, 69, 70, 71, 72, 77, 78]

/-- Known raw codes of the RefTimeStatus table in objects.rs. -/
def refTimeStatusKnownCodes : List Nat :=
  [20, 60, 80, 100, 120, 130, 140, 160, 170, 180, 200]

/-! ### Lock state objects (novatel-oem6-service/src/objects.rs) -/

/-- Time structure for lockStatus and lockInfo response fields: GPS reference
week and milliseconds from the beginning of the week (both i32 in the code). -/
structure OEMTime where
  week : Int
  ms : Int
deriving DecidableEq, Repr

/-- Response fields for the lockStatus query: raw status codes as received
from the hardware (u8 for time_status, u32 for the rest). -/
structure LockStatus where
  time_status : Nat
  time : OEMTime
  position_status : Nat
  position_type : Nat
  velocity_status : Nat
  velocity_type : Nat
deriving DecidableEq, Repr

/-- Rust impl Default for LockStatus, transcribed from objects.rs. -/
def LockStatus.default : LockStatus :=
  { time_status := 20
    time := { week := 0, ms := 0 }
    position_status := 1
    position_type := 0
    velocity_status := 1
    velocity_type := 0 }

/-- GraphQL resolver field time_status of LockStatus: decodes the raw u8. -/
def LockStatus.timeStatusField (s : LockStatus) : RefTimeStatus :=
  RefTimeStatus.fromU8 s.time_status

/-- GraphQL resolver field position_status of LockStatus: decodes the raw u32. -/
def LockStatus.positionStatusField (s : LockStatus) : SolutionStatus :=
  SolutionStatus.fromU32 s.position_status

/-- GraphQL resolver field position_type of LockStatus: decodes the raw u32. -/
def LockStatus.positionTypeField (s : LockStatus) : PosVelType :=
  PosVelType.fromU32 s.position_type

/-- GraphQL resolver field velocity_status of LockStatus: decodes the raw u32. -/
def LockStatus.velocityStatusField (s : LockStatus) : SolutionStatus :=
  SolutionStatus.fromU32 s.velocity_status

/-- GraphQL resolver field velocity_type of LockStatus: decodes the raw u32. -/
def LockStatus.velocityTypeField (s : LockStatus) : PosVelType :=
  PosVelType.fromU32 s.velocity_type

/-- Three f64 coordinates, carried as raw IEEE-754 bit patterns: the lock
bookkeeping only copies them, it never does arithmetic on them. -/
structure Vec3 where
  x : Nat
  y : Nat
  z : Nat
deriving DecidableEq, Repr

/-- Current system lock information (last known good position and velocity
plus the timestamp when they were last updated), from objects.rs. -/
structure LockInfo where
  time : OEMTime
  position : Vec3
  velocity : Vec3
deriving DecidableEq, Repr

/-- Modelled from the spec: the shape of a decoded nominal telemetry (BestXYZ)
frame as far as lock bookkeeping is concerned: a timestamp, raw solution
status codes and position and velocity vectors. The telemetry-reader update
code of novatel-oem6-service is not under src, only its data types are. -/
structure BestXyzFrame where
  time : OEMTime
  posStatus : Nat
  position : Vec3
  velStatus : Nat
  velocity : Vec3
deriving DecidableEq, Repr

/-- Modelled from the spec: LockInfo is updated ONLY when the corresponding
solution status indicates a computed fix and otherwise retains its previous
value; the timestamp is refreshed whenever either field is updated. The
telemetry-reader update code of novatel-oem6-service is not under src. -/
def updateLockInfo (info : LockInfo) (f : BestXyzFrame) : LockInfo :=
  { time :=
      if SolutionStatus.fromU32 f.posStatus = .SolComputed ∨
         SolutionStatus.fromU32 f.velStatus = .SolComputed
      then f.time else info.time
    position :=
      if SolutionStatus.fromU32 f.posStatus = .SolComputed
      then f.position else info.position
    velocity :=
      if SolutionStatus.fromU32 f.velStatus = .SolComputed
      then f.velocity else info.velocity }

/-! ### MAI-400 packet codec (mai400-api)

The encoder implementation is not under src; only its test suite
(src/apis/mai400-api/src/tests/tx.rs) is. The codec below is modelled from
the spec — a 40-byte frame: 2-byte sync header, 1-byte message code,
zero-padded payload with little-endian numeric fields, and a 2-byte
little-endian accumulator checksum over all preceding bytes — and is pinned
against the golden byte vectors that the tests assert verbatim. -/

/-- Modelled from the spec: the fixed 2-byte sync header, as pinned by every
golden vector in tests/tx.rs. -/
def SYNC : List Nat := [0x90, 0xEB]

/-- Little-endian byte serialization of a 16-bit value. -/
def u16le (v : Nat) : List Nat := [v % 256, v / 256 % 256]

/-- Little-endian byte serialization of a 32-bit value. -/
def u32le (v : Nat) : List Nat :=
  [v % 256, v / 256 % 256, v / 65536 % 256, v / 16777216 % 256]

/-- An f32 field carried as its four IEEE-754 little-endian bytes: the codec
serializes floats byte-for-byte and never computes with them. -/
structure F32 where
  b0 : Nat
  b1 : Nat
  b2 : Nat
  b3 : Nat
deriving DecidableEq, Repr

/-- Byte serialization of an f32 field (already little-endian). -/
def F32.bytes (f : F32) : List Nat :=
  [f.b0 % 256, f.b1 % 256, f.b2 % 256, f.b3 % 256]

/-- Modelled from the spec: the closed set of framed MAI-400 commands
(Passthrough bypasses framing and is handled separately by the dispatcher). -/
inductive Command where
  | requestReset
  | confirmReset
  | setMode (mode p0 p1 p2 p3 : Nat)
  | setModeSun (mode sunMagRequired : Nat) (sunRotAngle : F32)
  | setGpsTime (gpsTime : Nat)
  | setRV (px py pz vx vy vz : F32) (gpsTime : Nat)
deriving DecidableEq, Repr

/-- Modelled from the spec: message code of each framed command, as pinned by
byte 2 of the golden vectors in tests/tx.rs. -/
def Command.msgCode : Command → Nat
  | .requestReset => 0x5A
  | .confirmReset => 0xF1
  | .setMode _ _ _ _ _ => 0x00
  | .setModeSun _ _ _ => 0x00
  | .setGpsTime _ => 0x44
  | .setRV _ _ _ _ _ _ _ => 0x41

/-- Modelled from the spec: payload of each framed command — little-endian
numeric fields in the layouts pinned by the golden vectors of tests/tx.rs
(SetMode carries the mode byte then four 16-bit little-endian parameters). -/
def Command.payload : Command → List Nat
  | .requestReset => []
  | .confirmReset => []
  | .setMode m p0 p1 p2 p3 =>
      [m % 256] ++ u16le p0 ++ u16le p1 ++ u16le p2 ++ u16le p3
  | .setModeSun m s a => [m % 256] ++ u16le s ++ a.bytes
  | .setGpsTime t => u32le t
  | .setRV px py pz vx vy vz t =>
      px.bytes ++ py.bytes ++ pz.bytes ++ vx.bytes ++ vy.bytes ++ vz.bytes ++
      u32le t

/-- Modelled from the spec: the 2-byte little-endian accumulator checksum of
the leading bytes of a packet. -/
def checksumBytes (body : List Nat) : List Nat :=
  [body.sum % 256, body.sum / 256 % 256]

/-- Modelled from the spec: frame a message code and payload into the fixed
40-byte packet — sync header, code, payload zero-padded to byte 37, then the
checksum over every preceding byte as the last two bytes. -/
def frame (code : Nat) (pl : List Nat) : List Nat :=
  (SYNC ++ [code % 256] ++ pl ++ List.replicate (35 - pl.length) 0) ++
  checksumBytes (SYNC ++ [code % 256] ++ pl ++ List.replicate (35 - pl.length) 0)

/-- Modelled from the spec: encode a framed command into its packet bytes. -/
def encode (c : Command) : List Nat := frame c.msgCode c.payload

/-! ### MAI-400 command dispatcher (mai400-api)

Modelled from the spec: the dispatcher encodes and writes a packet over the
transport and, for framed commands, blocks for the matching acknowledgement;
Passthrough writes caller bytes verbatim and awaits nothing. The transport is
modelled by the acknowledgement codes it will yield, a flag saying whether
writes succeed, and the log of writes performed. -/

/-- UART-level error kinds of the transport crate. -/
inductive UartError where
  | GenericError
  | TimedOut
deriving DecidableEq, Repr

/-- Error type of the MAI-400 API; command failures surface as the uartError
variant. -/
inductive MAIError where
  | GenericError
  | uartError (cause : UartError)
deriving DecidableEq, Repr

/-- State of the modelled transport: the acknowledgement message codes it
will yield in order, whether writes succeed, and the log of writes made. -/
structure Transport where
  acks : List Nat
  writeOk : Bool
  writes : List (List Nat)
deriving DecidableEq, Repr

/-- Modelled from the spec: write raw bytes to the transport; on failure the
generic transport error surfaces and nothing is recorded. -/
def tWrite (bytes : List Nat) (st : Transport) : Transport × Option MAIError :=
  if st.writeOk then ({ st with writes := st.writes ++ [bytes] }, none)
  else (st, some (.uartError .GenericError))

/-- Modelled from the spec: block for the next incoming acknowledgement; a
transport that yields nothing is a read timeout and an acknowledgement whose
code does not match the expectation is a mismatch — both surface as the same
generic transport error. -/
def awaitAck (code : Nat) (st : Transport) : Transport × Option MAIError :=
  match st.acks with
  | [] => (st, some (.uartError .GenericError))
  | a :: rest =>
      if a = code then ({ st with acks := rest }, none)
      else ({ st with acks := rest }, some (.uartError .GenericError))

/-- Sequence two transport steps, stopping at the first error. -/
def andThen (r : Transport × Option MAIError)
    (f : Transport → Transport × Option MAIError) :
    Transport × Option MAIError :=
  match r with
  | (st, none) => f st
  | (st, some e) => (st, some e)

/-- Modelled from the spec: send one framed command — encode, write, then
block for the acknowledgement keyed by the command expected reply code. -/
def send (c : Command) (st : Transport) : Transport × Option MAIError :=
  andThen (tWrite (encode c) st) (awaitAck c.msgCode)

/-- Modelled from the spec: the two-phase reset — send RequestReset, and only
after it succeeds send ConfirmReset; only full success is success. -/
def reset (st : Transport) : Transport × Option MAIError :=
  andThen (send .requestReset st) (send .confirmReset)

/-- Modelled from the spec: the set_mode command operation. -/
def set_mode (m p0 p1 p2 p3 : Nat) (st : Transport) :
    Transport × Option MAIError :=
  send (.setMode m p0 p1 p2 p3) st

/-- Modelled from the spec: the set_mode_sun command operation. -/
def set_mode_sun (m s : Nat) (a : F32) (st : Transport) :
    Transport × Option MAIError :=
  send (.setModeSun m s a) st

/-- Modelled from the spec: the set_gps_time command operation. -/
def set_gps_time (t : Nat) (st : Transport) : Transport × Option MAIError :=
  send (.setGpsTime t) st

/-- Modelled from the spec: the set_rv command operation. -/
def set_rv (px py pz vx vy vz : F32) (t : Nat) (st : Transport) :
    Transport × Option MAIError :=
  send (.setRV px py pz vx vy vz t) st

/-- Modelled from the spec: passthrough writes the caller-supplied bytes
verbatim — no framing, no checksum — and awaits no acknowledgement. -/
def passthrough (bytes : List Nat) (st : Transport) :
    Transport × Option MAIError :=
  tWrite bytes st

/-! ### Golden byte vectors, transcribed from src/apis/mai400-api/src/tests/tx.rs -/

/-- Golden packet for RequestReset, from test reset_good. -/
def tvRequestReset : List Nat :=
  [0x90, 0xEB, 0x5A, 0x0, 0x0, 0x0, 0x0, 0x0, 0x0, 0x0, 0x0, 0x0, 0x0, 0x0,
   0x0, 0x0, 0x0, 0x0, 0x0, 0x0, 0x0, 0x0, 0x0, 0x0, 0x0, 0x0, 0x0, 0x0, 0x0,
   0x0, 0x0, 0x0, 0x0, 0x0, 0x0, 0x0, 0x0, 0x0, 0xD5, 0x1]

/-- Golden packet for ConfirmReset, from test reset_good. -/
def tvConfirmReset : List Nat :=
  [0x90, 0xEB, 0xF1, 0x0, 0x0, 0x0, 0x0, 0x0, 0x0, 0x0, 0x0, 0x0, 0x0, 0x0,
   0x0, 0x0, 0x0, 0x0, 0x0, 0x0, 0x0, 0x0, 0x0, 0x0, 0x0, 0x0, 0x0, 0x0, 0x0,
   0x0, 0x0, 0x0, 0x0, 0x0, 0x0, 0x0, 0x0, 0x0, 0x6C, 0x2]

/-- Golden packet for SetMode(0x01, [0x02, 0x03, 0x04, 0x05]), from test
set_mode_good. -/
def tvSetMode : List Nat :=
  [0x90, 0xEB, 0x0, 0x1, 0x2, 0x0, 0x3, 0x0, 0x4, 0x0, 0x5, 0x0, 0x0, 0x0,
   0x0, 0x0, 0x0, 0x0, 0x0, 0x0, 0x0, 0x0, 0x0, 0x0, 0x0, 0x0, 0x0, 0x0, 0x0,
   0x0, 0x0, 0x0, 0x0, 0x0, 0x0, 0x0, 0x0, 0x0, 0x8A, 0x1]

/-- Golden packet for SetModeSun(0x08, 1, 2.2), from test set_mode_sun_good. -/
def tvSetModeSun : List Nat :=
  [0x90, 0xEB, 0x0, 0x8, 0x1, 0x0, 0xCD, 0xCC, 0xC, 0x40, 0x0, 0x0, 0x0, 0x0,
   0x0, 0x0, 0x0, 0x0, 0x0, 0x0, 0x0, 0x0, 0x0, 0x0, 0x0, 0x0, 0x0, 0x0, 0x0,
   0x0, 0x0, 0x0, 0x0, 0x0, 0x0, 0x0, 0x0, 0x0, 0x69, 0x3]

/-- Golden packet for SetGpsTime(1198800018), from test set_gps_time_good. -/
def tvSetGpsTime : List Nat :=
  [0x90, 0xEB, 0x44, 0x92, 0x3C, 0x74, 0x47, 0x0, 0x0, 0x0, 0x0, 0x0, 0x0,
   0x0, 0x0, 0x0, 0x0, 0x0, 0x0, 0x0, 0x0, 0x0, 0x0, 0x0, 0x0, 0x0, 0x0, 0x0,
   0x0, 0x0, 0x0, 0x0, 0x0, 0x0, 0x0, 0x0, 0x0, 0x0, 0x48, 0x3]

/-- Golden packet for SetRV([1.1, 2.2, 3.3], [4.4, 5.5, 6.6], 1198800018),
from test set_rv_good. -/
def tvSetRV : List Nat :=
  [0x90, 0xEB, 0x41, 0xCD, 0xCC, 0x8C, 0x3F, 0xCD, 0xCC, 0xC, 0x40, 0x33,
   0x33, 0x53, 0x40, 0xCD, 0xCC, 0x8C, 0x40, 0x0, 0x0, 0xB0, 0x40, 0x33, 0x33,
   0xD3, 0x40, 0x92, 0x3C, 0x74, 0x47, 0x0, 0x0, 0x0, 0x0, 0x0, 0x0, 0x0,
   0x55, 0xD]

/-- IEEE-754 bytes of the f32 constants used by the golden tests. -/
def f32OnePointOne : F32 := ⟨0xCD, 0xCC, 0x8C, 0x3F⟩

/-- IEEE-754 bytes of 2.2f32. -/
def f32TwoPointTwo : F32 := ⟨0xCD, 0xCC, 0x0C, 0x40⟩

/-- IEEE-754 bytes of 3.3f32. -/
def f32ThreePointThree : F32 := ⟨0x33, 0x33, 0x53, 0x40⟩

/-- IEEE-754 bytes of 4.4f32. -/
def f32FourPointFour : F32 := ⟨0xCD, 0xCC, 0x8C, 0x40⟩

/-- IEEE-754 bytes of 5.5f32. -/
def f32FivePointFive : F32 := ⟨0x00, 0x00, 0xB0, 0x40⟩

/-- IEEE-754 bytes of 6.6f32. -/
def f32SixPointSix : F32 := ⟨0x33, 0x33, 0xD3, 0x40⟩

example : encode .requestReset = tvRequestReset := by decide
example : encode .confirmReset = tvConfirmReset := by decide
example : encode (.setMode 0x01 0x02 0x03 0x04 0x05) = tvSetMode := by decide
example : encode (.setModeSun 0x08 1 f32TwoPointTwo) = tvSetModeSun := by decide
example : encode (.setGpsTime 1198800018) = tvSetGpsTime := by decide
example : encode (.setRV f32OnePointOne f32TwoPointTwo f32ThreePointThree
    f32FourPointFour f32FivePointFive f32SixPointSix 1198800018) = tvSetRV := by
  decide

/-! ### Shared helper lemmas -/

/-- Every error exit of send is the generic transport error. -/
lemma send_snd (c : Command) (st : Transport) :
    (send c st).2 = none ∨
    (send c st).2 = some (.uartError .GenericError) := by
  obtain ⟨acks, wOk, ws⟩ := st
  cases wOk with
  | false => simp [send, andThen, tWrite]
  | true =>
      cases acks with
      | nil => simp [send, andThen, tWrite, awaitAck]
      | cons a rest =>
          by_cases h : a = c.msgCode <;>
            simp [send, andThen, tWrite, awaitAck, h]

/-- A send attempt writes its packet at most once. -/
lemma send_writes (c : Command) (st : Transport) :
    (send c st).1.writes = st.writes ∨
    (send c st).1.writes = st.writes ++ [encode c] := by
  obtain ⟨acks, wOk, ws⟩ := st
  cases wOk with
  | false => simp [send, andThen, tWrite]
  | true =>
      cases acks with
      | nil => simp [send, andThen, tWrite, awaitAck]
      | cons a rest =>
          by_cases h : a = c.msgCode <;>
            simp [send, andThen, tWrite, awaitAck, h]

/-- A successful send has written exactly its packet. -/
lemma send_ok_writes (c : Command) (st st1 : Transport)
    (h : send c st = (st1, none)) :
    st1.writes = st.writes ++ [encode c] := by
  obtain ⟨acks, wOk, ws⟩ := st
  cases wOk with
  | false => simp [send, andThen, tWrite] at h
  | true =>
      cases acks with
      | nil => simp [send, andThen, tWrite, awaitAck] at h
      | cons a rest =>
          by_cases hc : a = c.msgCode <;>
            simp [send, andThen, tWrite, awaitAck, hc] at h
          rw [← h]

/-- Every error exit of the two-phase reset is the generic transport error. -/
lemma reset_snd (st : Transport) :
    (reset st).2 = none ∨
    (reset st).2 = some (.uartError .GenericError) := by
  cases h : send Command.requestReset st with
  | mk st1 err =>
      cases err with
      | none =>
          have h2 := send_snd Command.confirmReset st1
          simpa [reset, andThen, h] using h2
      | some e =>
          have h2 := send_snd Command.requestReset st
          rw [h] at h2
          simp only [reset, andThen, h]
          simpa using h2

/-- The two-phase reset writes its two packets in order, each at most once. -/
lemma reset_writes (st : Transport) :
    (reset st).1.writes = st.writes ∨
    (reset st).1.writes = st.writes ++ [encode .requestReset] ∨
    (reset st).1.writes =
      st.writes ++ [encode .requestReset, encode .confirmReset] := by
  cases h : send Command.requestReset st with
  | mk st1 err =>
      cases err with
      | none =>
          have h1 := send_ok_writes Command.requestReset st st1 h
          have h2 := send_writes Command.confirmReset st1
          simp only [reset, andThen, h]
          rcases h2 with h2 | h2
          · rw [h2, h1]
            tauto
          · rw [h2, h1]
            simp
      | some e =>
          have h1 := send_writes Command.requestReset st
          rw [h] at h1
          simp only [reset, andThen, h]
          simp only at h1
          tauto

/-! ### Claim theorems -/

/-- Claim C3: the status decoders are pure total functions — for every raw
input value (any Nat code, covering every u8 for RefTimeStatus and every u32
for SolutionStatus and PosVelType) decoding returns a defined enum value, and
every input outside the known-code table resolves to the explicit
KubosInvalid sentinel variant. -/
theorem statusDecoders_unknown_fallback :
    (∀ t : Nat, t ∉ refTimeStatusKnownCodes →
      RefTimeStatus.fromU8 t = .KubosInvalid) ∧
    (∀ t : Nat, t ∉ solutionStatusKnownCodes →
      SolutionStatus.fromU32 t = .KubosInvalid) ∧
    (∀ t : Nat, t ∉ posVelTypeKnownCodes →
      PosVelType.fromU32 t = .KubosInvalid) := by
  refine ⟨?_, ?_, ?_⟩ <;> intro t h <;>
    simp only [refTimeStatusKnownCodes, solutionStatusKnownCodes,
      posVelTypeKnownCodes, List.mem_cons, List.not_mem_nil, or_false,
      not_or] at h
  · obtain ⟨h1, h2, h3, h4, h5, h6, h7, h8, h9, h10, h11⟩ := h
    simp [RefTimeStatus.fromU8, h1, h2, h3, h4, h5, h6, h7, h8, h9, h10, h11]
  · obtain ⟨h1, h2, h3, h4, h5, h6, h7, h8, h9, h10, h11, h12, h13, h14⟩ := h
    simp [SolutionStatus.fromU32, h1, h2, h3, h4, h5, h6, h7, h8, h9, h10,
      h11, h12, h13, h14]
  · obtain ⟨h1, h2, h3, h4, h5, h6, h7, h8, h9, h10, h11, h12, h13, h14, h15,
      h16, h17, h18, h19, h20, h21, h22, h23⟩ := h
    simp [PosVelType.fromU32, h1, h2, h3, h4, h5, h6, h7, h8, h9, h10, h11,
      h12, h13, h14, h15, h16, h17, h18, h19, h20, h21, h22, h23]

/-- Witness for C3: concrete unmapped codes decode to KubosInvalid. -/
theorem statusDecoders_unknown_fallback_witness :
    RefTimeStatus.fromU8 21 = .KubosInvalid ∧
    SolutionStatus.fromU32 10 = .KubosInvalid ∧
    PosVelType.fromU32 100 = .KubosInvalid :=
  ⟨statusDecoders_unknown_fallback.1 21 (by decide),
   statusDecoders_unknown_fallback.2.1 10 (by decide),
   statusDecoders_unknown_fallback.2.2 100 (by decide)⟩

/-- Claim C10: the default LockStatus has raw codes time_status = 20,
position_status = velocity_status = 1 and position_type = velocity_type = 0,
the query resolvers decode it to RefTimeStatus.Unknown,
SolutionStatus.InsufficientObservations and PosVelType.None, and the default
state never reports a computed fix. -/
theorem lockStatus_default_decodes_safe :
    LockStatus.default.time_status = 20 ∧
    LockStatus.default.position_status = 1 ∧
    LockStatus.default.velocity_status = 1 ∧
    LockStatus.default.position_type = 0 ∧
    LockStatus.default.velocity_type = 0 ∧
    LockStatus.default.timeStatusField = .Unknown ∧
    LockStatus.default.positionStatusField = .InsufficientObservations ∧
    LockStatus.default.velocityStatusField = .InsufficientObservations ∧
    LockStatus.default.positionTypeField = PosVelType.None ∧
    LockStatus.default.velocityTypeField = PosVelType.None ∧
    LockStatus.default.positionStatusField ≠ .SolComputed ∧
    LockStatus.default.velocityStatusField ≠ .SolComputed := by
  decide

/-- Claim C6: LockInfo position is updated only when the position solution
status decodes to SolComputed and otherwise retains its previous value; in
particular after a frame with a computed fix at position P followed by a
frame reporting InsufficientObservations, the stored position is still P. -/
theorem lockInfo_position_persistence :
    (∀ (info : LockInfo) (f : BestXyzFrame),
      SolutionStatus.fromU32 f.posStatus ≠ .SolComputed →
      (updateLockInfo info f).position = info.position) ∧
    (∀ (info : LockInfo) (f : BestXyzFrame),
      SolutionStatus.fromU32 f.posStatus = .SolComputed →
      (updateLockInfo info f).position = f.position) ∧
    (∀ (info : LockInfo) (f1 f2 : BestXyzFrame),
      SolutionStatus.fromU32 f1.posStatus = .SolComputed →
      SolutionStatus.fromU32 f2.posStatus = .InsufficientObservations →
      (updateLockInfo (updateLockInfo info f1) f2).position = f1.position) := by
  refine ⟨?_, ?_, ?_⟩
  · intro info f h
    simp [updateLockInfo, h]
  · intro info f h
    simp [updateLockInfo, h]
  · intro info f1 f2 h1 h2
    simp [updateLockInfo, h1, h2]

/-- Witness for C6: a concrete fix at position (11, 22, 33) survives a
following InsufficientObservations frame. -/
theorem lockInfo_position_persistence_witness :
    (updateLockInfo
      (updateLockInfo
        { time := { week := 0, ms := 0 },
          position := { x := 0, y := 0, z := 0 },
          velocity := { x := 0, y := 0, z := 0 } }
        { time := { week := 1980, ms := 100 },
          posStatus := 0, position := { x := 11, y := 22, z := 33 },
          velStatus := 0, velocity := { x := 44, y := 55, z := 66 } })
      { time := { week := 1980, ms := 200 },
        posStatus := 1, position := { x := 0, y := 0, z := 0 },
        velStatus := 1, velocity := { x := 0, y := 0, z := 0 } }).position =
    { x := 11, y := 22, z := 33 } :=
  lockInfo_position_persistence.2.2 _ _ _ (by decide) (by decide)

/-- Claim C2: every framed command packet has constant length 40, its last
two bytes are the accumulator sum of all 38 preceding bytes encoded 16-bit
little-endian (the checksum is excluded from its own computation), and the
reference sums are reproduced bit-for-bit: RequestReset sums to 0x01D5
giving trailer D5 01, ConfirmReset sums to 0x026C giving trailer 6C 02. -/
theorem encode_checksum_is_sum_of_leading_bytes :
    (∀ c : Command,
      (encode c).length = 40 ∧
      (encode c).drop 38 =
        [((encode c).take 38).sum % 256, ((encode c).take 38).sum / 256 % 256]) ∧
    ((encode .requestReset).take 38).sum = 0x1D5 ∧
    (encode .requestReset).drop 38 = [0xD5, 0x01] ∧
    encode .requestReset = tvRequestReset ∧
    ((encode .confirmReset).take 38).sum = 0x26C ∧
    (encode .confirmReset).drop 38 = [0x6C, 0x02] ∧
    encode .confirmReset = tvConfirmReset ∧
    encode (.setRV f32OnePointOne f32TwoPointTwo f32ThreePointThree
      f32FourPointFour f32FivePointFive f32SixPointSix 1198800018) = tvSetRV := by
  refine ⟨?_, by decide, by decide, by decide, by decide, by decide, by decide,
    by decide⟩
  intro c
  have hpl : c.payload.length ≤ 35 := by
    cases c <;> simp [Command.payload, u16le, u32le, F32.bytes]
  have hbody : (SYNC ++ [c.msgCode % 256] ++ c.payload ++
      List.replicate (35 - c.payload.length) 0).length = 38 := by
    simp [SYNC]
    omega
  have henc : encode c = (SYNC ++ [c.msgCode % 256] ++ c.payload ++
      List.replicate (35 - c.payload.length) 0) ++
      checksumBytes (SYNC ++ [c.msgCode % 256] ++ c.payload ++
      List.replicate (35 - c.payload.length) 0) := rfl
  rw [henc, List.take_left' hbody, List.drop_left' hbody]
  constructor
  · rw [List.length_append, hbody]
    rfl
  · rfl

/-- Claim C1 counterexample: the golden SetGpsTime(1198800018) packet that
test set_gps_time_good asserts has 40 bytes, not 39. -/
theorem setGpsTime_golden_is_not_39_bytes :
    tvSetGpsTime.length ≠ 39 ∧
    tvSetGpsTime.length = 40 ∧
    (encode (.setGpsTime 1198800018)).length ≠ 39 := by
  decide

/-- Claim C1 (amended): encode is deterministic and reproduces the golden
vectors — SetGpsTime(1198800018) encodes to the fixed 40-byte sequence
ending in checksum bytes 48 03, and SetMode(0x01, [0x02, 0x03, 0x04, 0x05])
encodes to the fixed 40-byte sequence ending in checksum bytes 8A 01. -/
theorem encode_reproduces_golden_vectors :
    encode (.setGpsTime 1198800018) = tvSetGpsTime ∧
    tvSetGpsTime.length = 40 ∧
    tvSetGpsTime.drop 38 = [0x48, 0x03] ∧
    encode (.setMode 0x01 0x02 0x03 0x04 0x05) = tvSetMode ∧
    tvSetMode.length = 40 ∧
    tvSetMode.drop 38 = [0x8A, 0x01] := by
  decide

/-- Claim C8 counterexample: in the golden SetMode(0x01, [0x02, 0x03, 0x04,
0x05]) packet asserted by test set_mode_good, the five bytes following the
message code are 01 02 00 03 00 — not the mode byte followed by one byte per
parameter, which would read 01 02 03 04 05. -/
theorem setMode_params_are_not_single_bytes :
    (tvSetMode.drop 3).take 5 ≠ [0x01, 0x02, 0x03, 0x04, 0x05] ∧
    (tvSetMode.drop 3).take 5 = [0x01, 0x02, 0x00, 0x03, 0x00] ∧
    ((encode (.setMode 0x01 0x02 0x03 0x04 0x05)).drop 3).take 5 ≠
      [0x01, 0x02, 0x03, 0x04, 0x05] := by
  decide

/-- Claim C8 (amended): the SetMode packet payload consists of the mode byte
followed by the four parameter values encoded as 16-bit little-endian fields
(two bytes per parameter), placed immediately after the message code. -/
theorem setMode_payload_layout :
    ∀ m p0 p1 p2 p3 : Nat,
      ((encode (.setMode m p0 p1 p2 p3)).drop 3).take 9 =
        [m % 256] ++ u16le p0 ++ u16le p1 ++ u16le p2 ++ u16le p3 := by
  intro m p0 p1 p2 p3
  rfl

/-- Claim C4: given a transport that yields the RequestReset acknowledgement
followed by the ConfirmReset acknowledgement, reset returns success, sending
first the RequestReset packet (message code 0x5A) and then the ConfirmReset
packet (message code 0xF1), with no observable side effect beyond those two
writes: the final transport state is exactly the initial one with both
acknowledgements consumed and the two packets appended to the write log. -/
theorem reset_two_phase_success :
    ∀ w0 : List (List Nat),
      reset { acks := [0x5A, 0xF1], writeOk := true, writes := w0 } =
        ({ acks := [], writeOk := true,
           writes := w0 ++ [encode .requestReset, encode .confirmReset] },
         none) ∧
      (encode .requestReset).take 3 = [0x90, 0xEB, 0x5A] ∧
      (encode .confirmReset).take 3 = [0x90, 0xEB, 0xF1] := by
  intro w0
  refine ⟨?_, by decide, by decide⟩
  simp [reset, send, andThen, tWrite, awaitAck, Command.msgCode]

/-- Claim C5: given a transport that yields nothing, reset returns the
generic transport error and never returns success, whether or not the write
itself goes through. -/
theorem reset_no_acks_fails :
    ∀ (wOk : Bool) (w0 : List (List Nat)),
      (reset { acks := [], writeOk := wOk, writes := w0 }).2 =
        some (.uartError .GenericError) := by
  intro wOk w0
  cases wOk <;> simp [reset, send, andThen, tWrite, awaitAck]

/-- Claim C7: for every input byte sequence, passthrough writes exactly those
bytes to the transport — no sync header, message code, padding or checksum is
added, regardless of content — and no acknowledgement is awaited: the
pending acknowledgement stream is untouched on every path. -/
theorem passthrough_writes_exact_bytes :
    (∀ (bytes : List Nat) (st : Transport), st.writeOk = true →
      passthrough bytes st =
        ({ st with writes := st.writes ++ [bytes] }, none)) ∧
    (∀ (bytes : List Nat) (st : Transport),
      (passthrough bytes st).1.acks = st.acks) := by
  constructor
  · intro bytes st h
    simp [passthrough, tWrite, h]
  · intro bytes st
    by_cases h : st.writeOk = true <;> simp [passthrough, tWrite, h]

/-- Witness for C7: a concrete passthrough writes its bytes verbatim and
leaves the acknowledgement stream alone. -/
theorem passthrough_writes_exact_bytes_witness :
    passthrough [1, 2, 3] { acks := [7], writeOk := true, writes := [] } =
      ({ acks := [7], writeOk := true, writes := [[1, 2, 3]] }, none) :=
  passthrough_writes_exact_bytes.1 [1, 2, 3]
    { acks := [7], writeOk := true, writes := [] } rfl

/-- Claim C9: every failure mode of a command operation — transport write
failure, transport read failure or timeout while awaiting an
acknowledgement, and acknowledgement-code mismatch — surfaces as the same
single generic transport error (the uartError variant with cause
GenericError) for every command operation, and the dispatcher never retries
internally: each operation appends each of its packets to the write log at
most once, in order. -/
theorem dispatcher_uniform_error_no_retry :
    (∀ (st : Transport) (e : MAIError), (reset st).2 = some e →
      e = .uartError .GenericError) ∧
    (∀ (m p0 p1 p2 p3 : Nat) (st : Transport) (e : MAIError),
      (set_mode m p0 p1 p2 p3 st).2 = some e →
      e = .uartError .GenericError) ∧
    (∀ (m s : Nat) (a : F32) (st : Transport) (e : MAIError),
      (set_mode_sun m s a st).2 = some e → e = .uartError .GenericError) ∧
    (∀ (t : Nat) (st : Transport) (e : MAIError),
      (set_gps_time t st).2 = some e → e = .uartError .GenericError) ∧
    (∀ (px py pz vx vy vz : F32) (t : Nat) (st : Transport) (e : MAIError),
      (set_rv px py pz vx vy vz t st).2 = some e →
      e = .uartError .GenericError) ∧
    (∀ (bytes : List Nat) (st : Transport) (e : MAIError),
      (passthrough bytes st).2 = some e → e = .uartError .GenericError) ∧
    (∀ st : Transport,
      (reset st).1.writes = st.writes ∨
      (reset st).1.writes = st.writes ++ [encode .requestReset] ∨
      (reset st).1.writes =
        st.writes ++ [encode .requestReset, encode .confirmReset]) ∧
    (∀ (m p0 p1 p2 p3 : Nat) (st : Transport),
      (set_mode m p0 p1 p2 p3 st).1.writes = st.writes ∨
      (set_mode m p0 p1 p2 p3 st).1.writes =
        st.writes ++ [encode (.setMode m p0 p1 p2 p3)]) ∧
    (∀ (m s : Nat) (a : F32) (st : Transport),
      (set_mode_sun m s a st).1.writes = st.writes ∨
      (set_mode_sun m s a st).1.writes =
        st.writes ++ [encode (.setModeSun m s a)]) ∧
    (∀ (t : Nat) (st : Transport),
      (set_gps_time t st).1.writes = st.writes ∨
      (set_gps_time t st).1.writes = st.writes ++ [encode (.setGpsTime t)]) ∧
    (∀ (px py pz vx vy vz : F32) (t : Nat) (st : Transport),
      (set_rv px py pz vx vy vz t st).1.writes = st.writes ∨
      (set_rv px py pz vx vy vz t st).1.writes =
        st.writes ++ [encode (.setRV px py pz vx vy vz t)]) ∧
    (∀ (bytes : List Nat) (st : Transport),
      (passthrough bytes st).1.writes = st.writes ∨
      (passthrough bytes st).1.writes = st.writes ++ [bytes]) := by
  have hsend : ∀ (c : Command) (st : Transport) (e : MAIError),
      (send c st).2 = some e → e = .uartError .GenericError := by
    intro c st e h
    rcases send_snd c st with h2 | h2 <;> rw [h2] at h
    · exact absurd h (by simp)
    · exact (Option.some_injective _ h.symm)
  have hreset : ∀ (st : Transport) (e : MAIError),
      (reset st).2 = some e → e = .uartError .GenericError := by
    intro st e h
    rcases reset_snd st with h2 | h2 <;> rw [h2] at h
    · exact absurd h (by simp)
    · exact (Option.some_injective _ h.symm)
  have hpass : ∀ (bytes : List Nat) (st : Transport) (e : MAIError),
      (passthrough bytes st).2 = some e → e = .uartError .GenericError := by
    intro bytes st e h
    by_cases hw : st.writeOk = true <;>
      simp [passthrough, tWrite, hw] at h
    exact h.symm
  have hpassw : ∀ (bytes : List Nat) (st : Transport),
      (passthrough bytes st).1.writes = st.writes ∨
      (passthrough bytes st).1.writes = st.writes ++ [bytes] := by
    intro bytes st
    by_cases hw : st.writeOk = true <;> simp [passthrough, tWrite, hw]
  exact ⟨hreset,
    fun m p0 p1 p2 p3 => hsend (.setMode m p0 p1 p2 p3),
    fun m s a => hsend (.setModeSun m s a),
    fun t => hsend (.setGpsTime t),
    fun px py pz vx vy vz t => hsend (.setRV px py pz vx vy vz t),
    hpass,
    reset_writes,
    fun m p0 p1 p2 p3 => send_writes (.setMode m p0 p1 p2 p3),
    fun m s a => send_writes (.setModeSun m s a),
    fun t => send_writes (.setGpsTime t),
    fun px py pz vx vy vz t => send_writes (.setRV px py pz vx vy vz t),
    hpassw⟩

/-- Witness for C9: an acknowledgement-code mismatch on set_gps_time
surfaces as the generic transport error. -/
theorem dispatcher_uniform_error_no_retry_witness :
    (set_gps_time 15 { acks := [0x99], writeOk := true, writes := [] }).2 =
      some (.uartError .GenericError) ∧
    MAIError.uartError UartError.GenericError =
      MAIError.uartError UartError.GenericError :=
  ⟨by decide,
   dispatcher_uniform_error_no_retry.2.2.2.1 15
     { acks := [0x99], writeOk := true, writes := [] }
     (MAIError.uartError UartError.GenericError) (by decide)⟩

